import Mathlib

/-!
Shallow embedding of the update coordinator of the `open_inverter_gateway`
integration (`custom_components/openinverter/coordinator.py`), together with
proofs about its backoff, cache-substitution and persistence behaviour.

Modelling conventions:

* A decoded JSON object (a "Reading") is an association list of string keys to
  JSON scalar values, in insertion order, mirroring a Python `dict`.
* `datetime` values are modelled by a calendar date (an integer ordinal, in
  local time, as produced by `datetime.date()`) together with an opaque
  time-of-day component; `dt_util.now()` is an input to each transition.
* `timedelta` poll intervals are modelled in whole seconds (the scan interval
  is configured as an integer number of seconds; `timedelta(minutes=5)` is
  300 seconds).  Python truthiness of a `timedelta` (`timedelta(0)` is falsy)
  is the test `≠ 0` on naturals.
* Python truthiness of the cached dict (`{}` and `None` are falsy) is
  `dataTruthy`; truthiness of an optional `datetime` (always truthy when not
  `None`) is `timeTruthy`.
* The persistence `Store` is a slot holding the last blob written by
  `async_save`.  The blob mirrors the saved shape
  `{"data": ..., "timestamp": <ISO-8601 string>}`: the `data` key is an
  optional reading, and the `timestamp` key is modelled by `TSField`, which
  records whether the key is absent (or falsy), present but not parseable by
  `dt_util.parse_datetime`, or a faithful ISO-8601 rendering of a datetime
  (for an aware datetime, `parse_datetime` inverts `isoformat`, so a blob
  written by the coordinator itself always carries `TSField.valid`).
* The outcome of the bounded HTTP fetch is an input to each transition:
  a decoded JSON object, a decoded non-object payload, or a transport /
  timeout / HTTP-status error.  A non-object payload raises `UpdateFailed`
  inside the `try` block, which the `except` clause itself catches, so it is
  handled by the same failure path as a transport error.
-/

namespace OpenInverter

/-- A JSON scalar value appearing in a device reading (number, or string such
as a MAC address).  The substitution logic overwrites values with the Python
integer `0`, i.e. `JsonValue.num 0`. -/
inductive JsonValue where
  | num (n : Int)
  | str (s : String)
deriving DecidableEq

/-- A decoded device reading: a JSON object as an ordered association list,
mirroring a Python `dict` (keys unique, insertion order preserved). -/
abbrev Reading := List (String × JsonValue)

/-- `DAILY_SENSORS` from `const.py`: sensors cached during the day and reset
to 0 at midnight. -/
def DAILY_SENSORS : List String :=
  ["TodayGenerateEnergy",
   "PV1EnergyToday",
   "PV2EnergyToday",
   "EnergyToUserToday",
   "EnergyToGridToday",
   "DischargeEnergyToday",
   "ChargeEnergyToday"]

/-- A local-time instant: the calendar date (as `datetime.date()`, an integer
ordinal) plus an opaque time-of-day component distinguishing instants within
a day. -/
structure Time where
  date : Int
  tod : Nat
deriving DecidableEq

/-- The `"timestamp"` entry of a stored blob: absent (or falsy), present but
rejected by `dt_util.parse_datetime` (which then returns `None`), or a valid
ISO-8601 rendering of the instant `t` (as written by `isoformat()`, which
`parse_datetime` inverts for aware datetimes). -/
inductive TSField where
  | absent
  | invalid
  | valid (t : Time)
deriving DecidableEq

/-- A persisted storage blob, mirroring `{"data": ..., "timestamp": ...}`:
either key may be missing or malformed in hand-edited / corrupt storage. -/
structure StoredBlob where
  data? : Option Reading
  timestamp? : TSField
deriving DecidableEq

/-- The mutable fields of `OpenInverterDataUpdateCoordinator` relevant to
polling: `_base_update_interval`, `update_interval` (seconds),
`_last_valid_data`, `_last_valid_time`. -/
structure CoordinatorState where
  base_update_interval : Nat
  update_interval : Nat
  last_valid_data : Option Reading
  last_valid_time : Option Time
deriving DecidableEq

/-- Coordinator state together with the persistence store contents
(`none` = nothing stored, or `async_load` raising / returning falsy). -/
structure World where
  coord : CoordinatorState
  store : Option StoredBlob
deriving DecidableEq

/-- Python truthiness of `self._last_valid_data` (`None` and `{}` falsy). -/
def dataTruthy : Option Reading → Bool
  | none => false
  | some r => !r.isEmpty

/-- Python truthiness of `self._last_valid_time` (a datetime is always
truthy). -/
def timeTruthy : Option Time → Bool
  | none => false
  | some _ => true

/-- `now.date() == self._last_valid_time.date()` (only evaluated after the
truthiness guard, so the `none` branch is unreachable there). -/
def sameDate (now : Time) : Option Time → Bool
  | none => false
  | some t => now.date == t.date

/-- The exponential-backoff step applied to `update_interval` on every fetch
failure (coordinator.py lines 132-144): if the interval is truthy and below
5 minutes, double it and cap at 5 minutes; otherwise leave it unchanged. -/
def backoffStep (i : Nat) : Nat :=
  if i ≠ 0 ∧ i < 300 then
    if i * 2 > 300 then 300 else i * 2
  else i

/-- The same-day substitute built on failure (coordinator.py lines 154-159):
keep values of keys in `DAILY_SENSORS`, zero out every other key. -/
def substituteSameDay (data : Reading) : Reading :=
  data.map (fun kv => if kv.1 ∈ DAILY_SENSORS then kv else (kv.1, JsonValue.num 0))

/-- The new-day substitute (coordinator.py line 171): every key mapped
to `0`. -/
def zeroAll (data : Reading) : Reading :=
  data.map (fun kv => (kv.1, JsonValue.num 0))

/-- Outcome of the bounded fetch + JSON decode at the top of
`_async_update_data`. -/
inductive FetchOutcome where
  | dict (data : Reading)
  | notDict
  | error
deriving DecidableEq

/-- `true` for the outcomes handled by the `except` clause (timeout, client
error, bad status, and the `UpdateFailed` raised for a non-dict payload). -/
def FetchOutcome.isFailure : FetchOutcome → Bool
  | .dict _ => false
  | .notDict => true
  | .error => true

/-- Result of one `_async_update_data` call: a returned reading (fresh or
substituted) or a raised `UpdateFailed` carrying the underlying error. -/
inductive RefreshResult where
  | ok (data : Reading)
  | failed (cause : FetchOutcome)
deriving DecidableEq

/-- One call of `_async_update_data` (coordinator.py lines 86-180).
`outcome` is the result of the guarded fetch, `now` is `dt_util.now()`,
and `persistOk` tells whether `self._store.async_save` succeeds (its
exception is caught and only logged). -/
def async_update_data (w : World) (outcome : FetchOutcome) (now : Time)
    (persistOk : Bool) : World × RefreshResult :=
  match outcome with
  | FetchOutcome.dict data =>
      let s0 := { w.coord with last_valid_data := some data, last_valid_time := some now }
      let newStore :=
        if persistOk then
          some { data? := some data, timestamp? := TSField.valid now }
        else w.store
      let s1 :=
        if s0.update_interval ≠ s0.base_update_interval then
          { s0 with update_interval := s0.base_update_interval }
        else s0
      ({ coord := s1, store := newStore }, RefreshResult.ok data)
  | cause =>
      let s := { w.coord with update_interval := backoffStep w.coord.update_interval }
      let res :=
        if dataTruthy s.last_valid_data && timeTruthy s.last_valid_time
            && sameDate now s.last_valid_time then
          RefreshResult.ok (substituteSameDay (s.last_valid_data.getD []))
        else if dataTruthy s.last_valid_data then
          RefreshResult.ok (zeroAll (s.last_valid_data.getD []))
        else
          RefreshResult.failed cause
      ({ coord := s, store := w.store }, res)

/-- `async_load_saved_data` (coordinator.py lines 60-76) applied to the
stored contents: on falsy or raising `async_load`, nothing changes; on a
blob, `_last_valid_data` is set to the blob's `data` entry, and
`_last_valid_time` is set from the `timestamp` entry only when that entry is
truthy (left untouched when absent, set to `None` when unparseable). -/
def async_load_saved_data (s : CoordinatorState) (stored : Option StoredBlob) :
    CoordinatorState :=
  match stored with
  | none => s
  | some b =>
      let s1 := { s with last_valid_data := b.data? }
      match b.timestamp? with
      | TSField.absent => s1
      | TSField.invalid => { s1 with last_valid_time := none }
      | TSField.valid t => { s1 with last_valid_time := some t }

/-- `_handle_options_update` (coordinator.py lines 78-84): set both the
current and the base interval to the newly configured scan interval. -/
def handle_options_update (s : CoordinatorState) (new_interval_seconds : Nat) :
    CoordinatorState :=
  { s with update_interval := new_interval_seconds,
           base_update_interval := new_interval_seconds }

/-- The coordinator as constructed by `__init__` with scan interval
`scan_interval` seconds: both intervals equal, empty cache, nothing known to
be stored. -/
def initWorld (scan_interval : Nat) : World :=
  { coord := { base_update_interval := scan_interval,
               update_interval := scan_interval,
               last_valid_data := none,
               last_valid_time := none },
    store := none }

/-- An external event driving the coordinator: one refresh tick (with its
fetch outcome, wall-clock time and persistence-write outcome), an options
reconfiguration, or a load of saved data. -/
inductive Event where
  | refreshEv (outcome : FetchOutcome) (now : Time) (persistOk : Bool)
  | optionsEv (new_interval_seconds : Nat)
  | loadEv (stored : Option StoredBlob)
deriving DecidableEq

/-- `true` when the event is a refresh whose fetch fails. -/
def Event.isFailedRefresh : Event → Bool
  | .refreshEv outcome _ _ => outcome.isFailure
  | _ => false

/-- `true` unless the event loads a partial blob: a load is well formed when
it finds nothing, or a blob carrying both a `data` entry and a parseable
`timestamp` entry. -/
def Event.wellFormedLoad : Event → Bool
  | .loadEv none => true
  | .loadEv (some b) =>
      b.data?.isSome && (match b.timestamp? with
        | TSField.valid _ => true
        | _ => false)
  | _ => true

/-- Apply one event to the world. -/
def step (w : World) : Event → World
  | .refreshEv outcome now persistOk => (async_update_data w outcome now persistOk).1
  | .optionsEv n => { w with coord := handle_options_update w.coord n }
  | .loadEv stored => { w with coord := async_load_saved_data w.coord stored }

/-- Run a sequence of events. -/
def run (w : World) (evs : List Event) : World :=
  evs.foldl step w

end OpenInverter

namespace OpenInverter

/-! ### Helper lemmas about the substitution maps -/

/-- The same-day substitute has exactly the keys of the cached reading. -/
theorem substituteSameDay_keys (R : Reading) :
    (substituteSameDay R).map Prod.fst = R.map Prod.fst := by
  induction R with
  | nil => rfl
  | cons kv rest ih =>
      by_cases h : kv.1 ∈ DAILY_SENSORS <;>
        simp only [substituteSameDay, List.map_cons, h, if_pos, if_neg, not_false_iff] <;>
        simp_all [substituteSameDay]

/-- Pointwise description of the same-day substitute: daily keys keep their
cached entry, all other keys are mapped to `0`. -/
theorem substituteSameDay_zip (R : Reading) :
    ∀ p ∈ (substituteSameDay R).zip R,
      (p.2.1 ∈ DAILY_SENSORS → p.1 = p.2) ∧
      (p.2.1 ∉ DAILY_SENSORS → p.1 = (p.2.1, JsonValue.num 0)) := by
  induction R with
  | nil => intro p hp; simp [substituteSameDay] at hp
  | cons kv rest ih =>
      intro p hp
      simp only [substituteSameDay, List.map_cons, List.zip_cons_cons, List.mem_cons] at hp
      rcases hp with h | h
      · subst h
        constructor
        · intro hd; simp [hd]
        · intro hd; simp [hd]
      · exact ih p h

/-- The new-day substitute has exactly the keys of the cached reading. -/
theorem zeroAll_keys (R : Reading) :
    (zeroAll R).map Prod.fst = R.map Prod.fst := by
  induction R with
  | nil => rfl
  | cons kv rest ih => simp_all [zeroAll]

/-- Pointwise description of the new-day substitute: every key is mapped
to `0`. -/
theorem zeroAll_zip (R : Reading) :
    ∀ p ∈ (zeroAll R).zip R, p.1 = (p.2.1, JsonValue.num 0) := by
  induction R with
  | nil => intro p hp; simp [zeroAll] at hp
  | cons kv rest ih =>
      intro p hp
      simp only [zeroAll, List.map_cons, List.zip_cons_cons, List.mem_cons] at hp
      rcases hp with h | h
      · subst h; rfl
      · exact ih p h

/-- Shape of a failed `_async_update_data` call: backoff is applied to the
interval, the store is untouched, and the result is decided by the cached
data/time and the current date. -/
theorem update_data_fail (w : World) (cause : FetchOutcome) (now : Time)
    (persistOk : Bool) (hfail : cause.isFailure = true) :
    async_update_data w cause now persistOk =
      ({ coord := { w.coord with update_interval := backoffStep w.coord.update_interval },
         store := w.store },
       if dataTruthy w.coord.last_valid_data && timeTruthy w.coord.last_valid_time
           && sameDate now w.coord.last_valid_time then
         RefreshResult.ok (substituteSameDay (w.coord.last_valid_data.getD []))
       else if dataTruthy w.coord.last_valid_data then
         RefreshResult.ok (zeroAll (w.coord.last_valid_data.getD []))
       else RefreshResult.failed cause) := by
  cases cause with
  | dict d => simp [FetchOutcome.isFailure] at hfail
  | notDict => rfl
  | error => rfl

end OpenInverter

namespace OpenInverter

/-! ### Claim theorems -/

/-- C1 (amended: the cached reading must be nonempty — the code's truthiness
test on the cached dict makes it raise `UpdateFailed` when the cache holds
the empty reading).  For every nonempty cached reading `R` with timestamp
`t0` and a failed fetch at a time `now` on the same calendar date, the
refresh returns a substitute with exactly the keys of `R`, where every key
of `R` in `DAILY_SENSORS` keeps its cached entry and every other key is
mapped to `0`. -/
theorem claim_C1 (w : World) (R : Reading) (t0 now : Time) (cause : FetchOutcome)
    (persistOk : Bool) (hfail : cause.isFailure = true)
    (hdata : w.coord.last_valid_data = some R) (hne : R ≠ [])
    (htime : w.coord.last_valid_time = some t0) (hdate : now.date = t0.date) :
    ∃ sub, (async_update_data w cause now persistOk).2 = RefreshResult.ok sub ∧
      sub.map Prod.fst = R.map Prod.fst ∧
      ∀ p ∈ sub.zip R,
        (p.2.1 ∈ DAILY_SENSORS → p.1 = p.2) ∧
        (p.2.1 ∉ DAILY_SENSORS → p.1 = (p.2.1, JsonValue.num 0)) := by
  refine ⟨substituteSameDay R, ?_, substituteSameDay_keys R, substituteSameDay_zip R⟩
  have hie : R.isEmpty = false := by
    cases R with
    | nil => exact absurd rfl hne
    | cons a as => rfl
  rw [update_data_fail w cause now persistOk hfail]
  simp [dataTruthy, timeTruthy, sameDate, hdata, htime, hie, hdate]

/-- Witness for C1 at the spec's scenario 3: cache
`{"TodayGenerateEnergy": 52, "InputPower": 300}` from earlier today,
fetch fails now. -/
theorem claim_C1_witness :
    ∃ sub, (async_update_data
        { coord := { base_update_interval := 10, update_interval := 10,
                     last_valid_data := some [("TodayGenerateEnergy", JsonValue.num 52),
                                              ("InputPower", JsonValue.num 300)],
                     last_valid_time := some ⟨5, 1⟩ },
          store := none }
        FetchOutcome.error ⟨5, 3⟩ true).2 = RefreshResult.ok sub ∧
      sub.map Prod.fst
        = [("TodayGenerateEnergy", JsonValue.num 52),
           ("InputPower", JsonValue.num 300)].map Prod.fst ∧
      ∀ p ∈ sub.zip [("TodayGenerateEnergy", JsonValue.num 52),
                     ("InputPower", JsonValue.num 300)],
        (p.2.1 ∈ DAILY_SENSORS → p.1 = p.2) ∧
        (p.2.1 ∉ DAILY_SENSORS → p.1 = (p.2.1, JsonValue.num 0)) :=
  claim_C1 _ _ ⟨5, 1⟩ ⟨5, 3⟩ FetchOutcome.error true rfl rfl
    (List.cons_ne_nil _ _) rfl rfl

/-- Counterexample to C1 as stated: the empty reading `{}` is a valid cached
reading (it passes the `isinstance(data, dict)` check and is stored by a
successful refresh), but on a same-day failure the falsy-dict test skips both
substitution branches and the code raises `UpdateFailed` instead of returning
the (empty) substitute. -/
theorem claim_C1_counterexample :
    (async_update_data
        { coord := { base_update_interval := 10, update_interval := 10,
                     last_valid_data := some [], last_valid_time := some ⟨5, 1⟩ },
          store := none }
        FetchOutcome.error ⟨5, 3⟩ true).2 = RefreshResult.failed FetchOutcome.error ∧
    (async_update_data
        { coord := { base_update_interval := 10, update_interval := 10,
                     last_valid_data := some [], last_valid_time := some ⟨5, 1⟩ },
          store := none }
        FetchOutcome.error ⟨5, 3⟩ true).2 ≠ RefreshResult.ok [] := by
  decide

/-- C2 (amended: the cached reading must be nonempty — with the empty reading
cached the code raises `UpdateFailed` instead).  For every nonempty cached
reading `R` with timestamp `t0` and a failed fetch at a time `now` on a
different calendar date, the refresh returns a substitute whose key set
equals the key set of `R` and in which every key is mapped to `0`. -/
theorem claim_C2 (w : World) (R : Reading) (t0 now : Time) (cause : FetchOutcome)
    (persistOk : Bool) (hfail : cause.isFailure = true)
    (hdata : w.coord.last_valid_data = some R) (hne : R ≠ [])
    (htime : w.coord.last_valid_time = some t0) (hdate : now.date ≠ t0.date) :
    ∃ sub, (async_update_data w cause now persistOk).2 = RefreshResult.ok sub ∧
      sub.map Prod.fst = R.map Prod.fst ∧
      ∀ p ∈ sub.zip R, p.1 = (p.2.1, JsonValue.num 0) := by
  refine ⟨zeroAll R, ?_, zeroAll_keys R, zeroAll_zip R⟩
  have hie : R.isEmpty = false := by
    cases R with
    | nil => exact absurd rfl hne
    | cons a as => rfl
  rw [update_data_fail w cause now persistOk hfail]
  simp [dataTruthy, timeTruthy, sameDate, hdata, htime, hie, hdate]

/-- Witness for C2 at the spec's scenario 4: same cache as scenario 3 but
from yesterday; every value is zeroed. -/
theorem claim_C2_witness :
    ∃ sub, (async_update_data
        { coord := { base_update_interval := 10, update_interval := 10,
                     last_valid_data := some [("TodayGenerateEnergy", JsonValue.num 52),
                                              ("InputPower", JsonValue.num 300)],
                     last_valid_time := some ⟨5, 1⟩ },
          store := none }
        FetchOutcome.error ⟨6, 3⟩ true).2 = RefreshResult.ok sub ∧
      sub.map Prod.fst
        = [("TodayGenerateEnergy", JsonValue.num 52),
           ("InputPower", JsonValue.num 300)].map Prod.fst ∧
      ∀ p ∈ sub.zip [("TodayGenerateEnergy", JsonValue.num 52),
                     ("InputPower", JsonValue.num 300)],
        p.1 = (p.2.1, JsonValue.num 0) :=
  claim_C2 _ _ ⟨5, 1⟩ ⟨6, 3⟩ FetchOutcome.error true rfl rfl
    (List.cons_ne_nil _ _) rfl (by decide)

/-- Counterexample to C2 as stated: with the empty reading cached from the
previous day, the day-rollover failure raises `UpdateFailed` instead of
returning the (empty) all-zero substitute. -/
theorem claim_C2_counterexample :
    (async_update_data
        { coord := { base_update_interval := 10, update_interval := 10,
                     last_valid_data := some [], last_valid_time := some ⟨5, 1⟩ },
          store := none }
        FetchOutcome.error ⟨6, 3⟩ true).2 = RefreshResult.failed FetchOutcome.error ∧
    (async_update_data
        { coord := { base_update_interval := 10, update_interval := 10,
                     last_valid_data := some [], last_valid_time := some ⟨5, 1⟩ },
          store := none }
        FetchOutcome.error ⟨6, 3⟩ true).2 ≠ RefreshResult.ok [] := by
  decide

end OpenInverter

namespace OpenInverter

/-! ### Backoff arithmetic -/

/-- Running one event and then the rest. -/
theorem run_cons (w : World) (e : Event) (rest : List Event) :
    run w (e :: rest) = run (step w e) rest := rfl

/-- One backoff step on an interval already clamped to the 5-minute ceiling
doubles it under the same clamp. -/
theorem backoffStep_min (x : Nat) : backoffStep (min x 300) = min (x * 2) 300 := by
  unfold backoffStep
  split_ifs <;> omega

/-- A failed refresh applies exactly one backoff step to the interval. -/
theorem update_data_fail_interval (w : World) (cause : FetchOutcome) (now : Time)
    (persistOk : Bool) (hfail : cause.isFailure = true) :
    (async_update_data w cause now persistOk).1.coord.update_interval
      = backoffStep w.coord.update_interval := by
  rw [update_data_fail w cause now persistOk hfail]

/-- Interval evolution along a run made only of failed refreshes, phrased
with the pre-clamped interval `min x 300`. -/
theorem run_failures_interval (evs : List Event) :
    ∀ (w : World) (x : Nat),
      (∀ e ∈ evs, e.isFailedRefresh = true) →
      w.coord.update_interval = min x 300 →
      (run w evs).coord.update_interval = min (x * 2 ^ evs.length) 300 := by
  induction evs with
  | nil =>
      intro w x _ h
      simpa using h
  | cons e rest ih =>
      intro w x hfail h
      have he : e.isFailedRefresh = true := hfail e (List.mem_cons_self e rest)
      have hrest : ∀ e2 ∈ rest, e2.isFailedRefresh = true :=
        fun e2 h2 => hfail e2 (List.mem_cons_of_mem e h2)
      cases e with
      | optionsEv n => simp [Event.isFailedRefresh] at he
      | loadEv st => simp [Event.isFailedRefresh] at he
      | refreshEv outcome now p =>
          have hstep : (step w (Event.refreshEv outcome now p)).coord.update_interval
              = min (x * 2) 300 := by
            rw [step, update_data_fail_interval w outcome now p he, h, backoffStep_min]
          have hlen : x * 2 * 2 ^ rest.length = x * 2 ^ (rest.length + 1) := by ring
          rw [run_cons, ih (step w (Event.refreshEv outcome now p)) (x * 2) hrest hstep,
            List.length_cons, hlen]

end OpenInverter

namespace OpenInverter

/-- C3 (amended: requires the base interval to be at most 5 minutes — the
scan interval is an arbitrary positive integer and the code never shrinks an
interval already at or above the ceiling, so a base above 5 minutes simply
stays put).  Starting from `update_interval = b` with `b ≤ 300` seconds,
after any sequence of `n` consecutive failed refreshes (and no success or
reconfiguration in between) the interval equals `min (b * 2 ^ n) 300`; the
doubling step applies on every failure regardless of the cache contents,
i.e. regardless of whether a substitution is possible. -/
theorem claim_C3 (w : World) (b : Nat) (evs : List Event)
    (hb : w.coord.update_interval = b) (hble : b ≤ 300)
    (hfail : ∀ e ∈ evs, e.isFailedRefresh = true) :
    (run w evs).coord.update_interval = min (b * 2 ^ evs.length) 300 := by
  apply run_failures_interval evs w b hfail
  rw [hb]
  exact (Nat.min_eq_left hble).symm

/-- Witness for C3 at the spec's scenario 1: base 10 s, two consecutive
failures (one transport error with an empty cache, one non-dict payload with
a populated cache) give 10 → 20 → 40. -/
theorem claim_C3_witness :
    (run (initWorld 10)
        [Event.refreshEv FetchOutcome.error ⟨0, 0⟩ true,
         Event.refreshEv FetchOutcome.notDict ⟨0, 1⟩ false]).coord.update_interval
      = min (10 * 2 ^ 2) 300 := by
  have h := claim_C3 (initWorld 10) 10
    [Event.refreshEv FetchOutcome.error ⟨0, 0⟩ true,
     Event.refreshEv FetchOutcome.notDict ⟨0, 1⟩ false]
    rfl (by omega) (by decide)
  simpa using h

/-- Counterexample to C3 as stated: with a configured base interval of 600 s
(10 minutes, a legal `cv.positive_int` scan interval), one failed refresh
leaves the interval at 600 s, whereas `min (600 * 2 ^ 1) 300 = 300`. -/
theorem claim_C3_counterexample :
    (run (initWorld 600)
        [Event.refreshEv FetchOutcome.error ⟨0, 0⟩ true]).coord.update_interval = 600 ∧
    min (600 * 2 ^ 1) 300 = 300 := by
  decide

/-- C4 (confirmed): a successful refresh always leaves
`update_interval = _base_update_interval` (resetting it if backoff had grown
it), and does not change the base interval. -/
theorem claim_C4 (w : World) (d : Reading) (now : Time) (persistOk : Bool) :
    (async_update_data w (FetchOutcome.dict d) now persistOk).1.coord.update_interval
        = (async_update_data w (FetchOutcome.dict d) now persistOk).1.coord.base_update_interval ∧
    (async_update_data w (FetchOutcome.dict d) now persistOk).1.coord.base_update_interval
        = w.coord.base_update_interval := by
  simp only [async_update_data]
  split_ifs with h
  · exact ⟨rfl, rfl⟩
  · refine ⟨?_, rfl⟩
    simpa using h

end OpenInverter

namespace OpenInverter

/-- C5 (amended: "cached reading present" must be read as a *nonempty*
cached reading — the code's truthiness test treats a cached empty dict like
an absent cache).  A failed refresh raises `UpdateFailed` carrying the
underlying fetch error exactly when no nonempty reading is cached; whenever
a nonempty reading is cached, it returns a substitute reading and never
raises. -/
theorem claim_C5 (w : World) (cause : FetchOutcome) (now : Time) (persistOk : Bool)
    (hfail : cause.isFailure = true) :
    ((async_update_data w cause now persistOk).2 = RefreshResult.failed cause
        ↔ dataTruthy w.coord.last_valid_data = false) ∧
    (dataTruthy w.coord.last_valid_data = true →
      ∃ sub, (async_update_data w cause now persistOk).2 = RefreshResult.ok sub) := by
  rw [update_data_fail w cause now persistOk hfail]
  cases hdt : dataTruthy w.coord.last_valid_data with
  | false => simp
  | true =>
      cases h2 : timeTruthy w.coord.last_valid_time && sameDate now w.coord.last_valid_time with
      | false => simp [h2]
      | true => simp [h2]

/-- Witness for C5 with an empty cache: the very first refresh fails and
raises `UpdateFailed`. -/
theorem claim_C5_witness :
    ((async_update_data (initWorld 60) FetchOutcome.error ⟨0, 0⟩ true).2
        = RefreshResult.failed FetchOutcome.error
      ↔ dataTruthy (initWorld 60).coord.last_valid_data = false) ∧
    (dataTruthy (initWorld 60).coord.last_valid_data = true →
      ∃ sub, (async_update_data (initWorld 60) FetchOutcome.error ⟨0, 0⟩ true).2
        = RefreshResult.ok sub) :=
  claim_C5 (initWorld 60) FetchOutcome.error ⟨0, 0⟩ true rfl

/-- Counterexample to C5 as stated: a successful refresh can cache the empty
reading `{}` (it passes the dict check), after which a failure still raises
`UpdateFailed` even though a cached reading is present. -/
theorem claim_C5_counterexample :
    (run (initWorld 60)
        [Event.refreshEv (FetchOutcome.dict []) ⟨3, 0⟩ true]).coord.last_valid_data
      = some [] ∧
    (async_update_data
        (run (initWorld 60) [Event.refreshEv (FetchOutcome.dict []) ⟨3, 0⟩ true])
        FetchOutcome.error ⟨3, 1⟩ true).2
      = RefreshResult.failed FetchOutcome.error := by
  decide

end OpenInverter

namespace OpenInverter

/-- One event preserves the interval bounds
`base ≤ current ≤ max base 300`. -/
theorem step_interval_bounds (w : World) (e : Event)
    (h1 : w.coord.base_update_interval ≤ w.coord.update_interval)
    (h2 : w.coord.update_interval ≤ max w.coord.base_update_interval 300) :
    (step w e).coord.base_update_interval ≤ (step w e).coord.update_interval ∧
    (step w e).coord.update_interval
      ≤ max (step w e).coord.base_update_interval 300 := by
  cases e with
  | refreshEv outcome now p =>
      cases outcome with
      | dict d =>
          simp only [step, async_update_data]
          split_ifs <;> constructor <;> simp_all
      | notDict =>
          simp only [step, async_update_data, backoffStep]
          split_ifs <;> constructor <;> simp_all <;> omega
      | error =>
          simp only [step, async_update_data, backoffStep]
          split_ifs <;> constructor <;> simp_all <;> omega
  | optionsEv n =>
      simp [step, handle_options_update]
  | loadEv stored =>
      cases stored with
      | none => exact ⟨h1, h2⟩
      | some b =>
          cases hb : b.timestamp? <;>
            simp_all [step, async_load_saved_data, hb]
end OpenInverter

namespace OpenInverter

/-- The interval bounds are preserved along any run. -/
theorem run_interval_bounds (evs : List Event) :
    ∀ w : World,
      w.coord.base_update_interval ≤ w.coord.update_interval →
      w.coord.update_interval ≤ max w.coord.base_update_interval 300 →
      (run w evs).coord.base_update_interval ≤ (run w evs).coord.update_interval ∧
      (run w evs).coord.update_interval
        ≤ max (run w evs).coord.base_update_interval 300 := by
  induction evs with
  | nil => intro w h1 h2; exact ⟨h1, h2⟩
  | cons e rest ih =>
      intro w h1 h2
      have hs := step_interval_bounds w e h1 h2
      rw [run_cons]
      exact ih (step w e) hs.1 hs.2

/-- C6 (amended: the 5-minute ceiling only bounds the interval relative to
the base — a configured base interval above 5 minutes is legal and then the
current interval equals it, exceeding 5 minutes).  In every state reachable
from construction by refreshes (succeeding or failing), reconfigurations and
loads: `base_update_interval ≤ update_interval` and
`update_interval ≤ max base_update_interval 300`; in particular the 5-minute
ceiling holds whenever the base interval is at most 5 minutes. -/
theorem claim_C6 (b : Nat) (evs : List Event) :
    (run (initWorld b) evs).coord.base_update_interval
        ≤ (run (initWorld b) evs).coord.update_interval ∧
    (run (initWorld b) evs).coord.update_interval
        ≤ max (run (initWorld b) evs).coord.base_update_interval 300 :=
  run_interval_bounds evs (initWorld b) (Nat.le_refl b) (Nat.le_max_left b 300)

/-- Counterexample to C6 as stated: reconfiguring the scan interval to 600 s
(legal, `cv.positive_int` has no upper bound) drives `update_interval` to
600 s, violating the claimed unconditional 5-minute (300 s) ceiling. -/
theorem claim_C6_counterexample :
    ¬ (run (initWorld 60) [Event.optionsEv 600]).coord.update_interval ≤ 300 := by
  decide

end OpenInverter

namespace OpenInverter

/-- One event with a well-formed load preserves the cache-pair invariant:
the cached reading and the cached timestamp are both absent or both
present. -/
theorem step_cache_consistent (w : World) (e : Event)
    (hwf : e.wellFormedLoad = true)
    (h : w.coord.last_valid_data.isSome = w.coord.last_valid_time.isSome) :
    (step w e).coord.last_valid_data.isSome
      = (step w e).coord.last_valid_time.isSome := by
  cases e with
  | refreshEv outcome now p =>
      cases outcome with
      | dict d =>
          simp only [step, async_update_data]
          split_ifs <;> simp
      | notDict => simpa [step, async_update_data] using h
      | error => simpa [step, async_update_data] using h
  | optionsEv n => simpa [step, handle_options_update] using h
  | loadEv stored =>
      cases stored with
      | none => simpa [step, async_load_saved_data] using h
      | some b =>
          cases hb : b.timestamp? with
          | absent => simp_all [Event.wellFormedLoad, hb]
          | invalid => simp_all [Event.wellFormedLoad, hb]
          | valid t =>
              simp_all [step, async_load_saved_data, Event.wellFormedLoad, hb]

/-- The cache-pair invariant holds along any run whose load events only see
well-formed stored content. -/
theorem run_cache_consistent (evs : List Event) :
    ∀ w : World,
      (∀ e ∈ evs, e.wellFormedLoad = true) →
      w.coord.last_valid_data.isSome = w.coord.last_valid_time.isSome →
      (run w evs).coord.last_valid_data.isSome
        = (run w evs).coord.last_valid_time.isSome := by
  induction evs with
  | nil => intro w _ h; exact h
  | cons e rest ih =>
      intro w hwf h
      rw [run_cons]
      exact ih (step w e)
        (fun e2 h2 => hwf e2 (List.mem_cons_of_mem e h2))
        (step_cache_consistent w e (hwf e (List.mem_cons_self e rest)) h)

/-- C7 (amended: restricted to loads of well-formed stored content — a
partial blob, e.g. one with a `data` entry but no `timestamp` entry, sets
one cache field without the other).  In every state reachable from
construction by refreshes and by loads of stored content that is absent or
carries both a `data` entry and a parseable `timestamp` entry,
`_last_valid_data` and `_last_valid_time` are both absent or both
present. -/
theorem claim_C7 (b : Nat) (evs : List Event)
    (hwf : ∀ e ∈ evs, e.wellFormedLoad = true) :
    (run (initWorld b) evs).coord.last_valid_data.isSome
      = (run (initWorld b) evs).coord.last_valid_time.isSome :=
  run_cache_consistent evs (initWorld b) hwf rfl

/-- Witness for C7: a load of a complete blob followed by a failed and a
successful refresh keeps the two cache fields in lockstep. -/
theorem claim_C7_witness :
    (run (initWorld 60)
        [Event.loadEv (some { data? := some [("Mac", JsonValue.str "AA")],
                              timestamp? := TSField.valid ⟨3, 0⟩ }),
         Event.refreshEv FetchOutcome.error ⟨4, 0⟩ true,
         Event.refreshEv (FetchOutcome.dict [("Mac", JsonValue.str "BB")]) ⟨4, 1⟩ true]
      ).coord.last_valid_data.isSome
      = (run (initWorld 60)
        [Event.loadEv (some { data? := some [("Mac", JsonValue.str "AA")],
                              timestamp? := TSField.valid ⟨3, 0⟩ }),
         Event.refreshEv FetchOutcome.error ⟨4, 0⟩ true,
         Event.refreshEv (FetchOutcome.dict [("Mac", JsonValue.str "BB")]) ⟨4, 1⟩ true]
      ).coord.last_valid_time.isSome :=
  claim_C7 60
    [Event.loadEv (some { data? := some [("Mac", JsonValue.str "AA")],
                          timestamp? := TSField.valid ⟨3, 0⟩ }),
     Event.refreshEv FetchOutcome.error ⟨4, 0⟩ true,
     Event.refreshEv (FetchOutcome.dict [("Mac", JsonValue.str "BB")]) ⟨4, 1⟩ true]
    (by decide)

/-- Counterexample to C7 as stated: loading a partial blob that has a `data`
entry but no `timestamp` entry sets `_last_valid_data` while leaving
`_last_valid_time` absent. -/
theorem claim_C7_counterexample :
    ¬ ((run (initWorld 60)
          [Event.loadEv (some { data? := some [("TodayGenerateEnergy", JsonValue.num 5)],
                                timestamp? := TSField.absent })]
        ).coord.last_valid_data.isSome
        = (run (initWorld 60)
          [Event.loadEv (some { data? := some [("TodayGenerateEnergy", JsonValue.num 5)],
                                timestamp? := TSField.absent })]
        ).coord.last_valid_time.isSome) := by
  decide

end OpenInverter

namespace OpenInverter

/-- C8 (confirmed): when the fetch succeeds with reading `d` but the
persistence write raises, the refresh still returns `d` (the persistence
error is not propagated), the cache is still updated to `d` and the fetch
time, the interval is still reset to the base interval, and the store is
left as it was. -/
theorem claim_C8 (w : World) (d : Reading) (now : Time) :
    (async_update_data w (FetchOutcome.dict d) now false).2 = RefreshResult.ok d ∧
    (async_update_data w (FetchOutcome.dict d) now false).1.coord.last_valid_data
        = some d ∧
    (async_update_data w (FetchOutcome.dict d) now false).1.coord.last_valid_time
        = some now ∧
    (async_update_data w (FetchOutcome.dict d) now false).1.coord.update_interval
        = w.coord.base_update_interval ∧
    (async_update_data w (FetchOutcome.dict d) now false).1.store = w.store := by
  refine ⟨rfl, ?_, ?_, ?_, rfl⟩ <;>
    simp only [async_update_data] <;> split_ifs with h <;> simp_all

/-- C9 (confirmed): after a successful refresh with reading `d` at time
`now` whose persistence write succeeds, loading the persisted blob into a
freshly constructed coordinator reproduces the cached reading `d` and the
cached time `now` (timestamp serialization is faithful for aware
datetimes). -/
theorem claim_C9 (w : World) (d : Reading) (now : Time) (b2 : Nat) :
    (async_load_saved_data (initWorld b2).coord
        (async_update_data w (FetchOutcome.dict d) now true).1.store).last_valid_data
      = some d ∧
    (async_load_saved_data (initWorld b2).coord
        (async_update_data w (FetchOutcome.dict d) now true).1.store).last_valid_time
      = some now := by
  exact ⟨rfl, rfl⟩

/-- C10 (confirmed): every failed refresh — same-day substitution,
day-rollover substitution, or raised `UpdateFailed` — leaves the cached
reading, the cached timestamp, the base interval and the persisted store
unchanged; and because the substitute is a fresh map that is never written
back into the cache, an immediately repeated failure at the same wall-clock
time produces the same result, substituted from the same original
reading. -/
theorem claim_C10 (w : World) (cause : FetchOutcome) (now : Time) (p q : Bool)
    (hfail : cause.isFailure = true) :
    (async_update_data w cause now p).1.coord.last_valid_data
        = w.coord.last_valid_data ∧
    (async_update_data w cause now p).1.coord.last_valid_time
        = w.coord.last_valid_time ∧
    (async_update_data w cause now p).1.coord.base_update_interval
        = w.coord.base_update_interval ∧
    (async_update_data w cause now p).1.store = w.store ∧
    (async_update_data ((async_update_data w cause now p).1) cause now q).2
        = (async_update_data w cause now p).2 := by
  cases cause with
  | dict d => simp [FetchOutcome.isFailure] at hfail
  | notDict => exact ⟨rfl, rfl, rfl, rfl, rfl⟩
  | error => exact ⟨rfl, rfl, rfl, rfl, rfl⟩

/-- Witness for C10: a same-day failure with a populated cache leaves the
cache, the base interval and the store unchanged, and a repeated failure
substitutes the same values again. -/
theorem claim_C10_witness :
    (async_update_data
        { coord := { base_update_interval := 10, update_interval := 10,
                     last_valid_data := some [("TodayGenerateEnergy", JsonValue.num 52),
                                              ("InputPower", JsonValue.num 300)],
                     last_valid_time := some ⟨5, 1⟩ },
          store := none }
        FetchOutcome.error ⟨5, 3⟩ true).1.coord.last_valid_data
        = some [("TodayGenerateEnergy", JsonValue.num 52),
                ("InputPower", JsonValue.num 300)] ∧
    (async_update_data
        { coord := { base_update_interval := 10, update_interval := 10,
                     last_valid_data := some [("TodayGenerateEnergy", JsonValue.num 52),
                                              ("InputPower", JsonValue.num 300)],
                     last_valid_time := some ⟨5, 1⟩ },
          store := none }
        FetchOutcome.error ⟨5, 3⟩ true).1.coord.last_valid_time = some ⟨5, 1⟩ ∧
    (async_update_data
        { coord := { base_update_interval := 10, update_interval := 10,
                     last_valid_data := some [("TodayGenerateEnergy", JsonValue.num 52),
                                              ("InputPower", JsonValue.num 300)],
                     last_valid_time := some ⟨5, 1⟩ },
          store := none }
        FetchOutcome.error ⟨5, 3⟩ true).1.coord.base_update_interval = 10 ∧
    (async_update_data
        { coord := { base_update_interval := 10, update_interval := 10,
                     last_valid_data := some [("TodayGenerateEnergy", JsonValue.num 52),
                                              ("InputPower", JsonValue.num 300)],
                     last_valid_time := some ⟨5, 1⟩ },
          store := none }
        FetchOutcome.error ⟨5, 3⟩ true).1.store = none ∧
    (async_update_data
        ((async_update_data
          { coord := { base_update_interval := 10, update_interval := 10,
                       last_valid_data := some [("TodayGenerateEnergy", JsonValue.num 52),
                                                ("InputPower", JsonValue.num 300)],
                       last_valid_time := some ⟨5, 1⟩ },
            store := none }
          FetchOutcome.error ⟨5, 3⟩ true).1)
        FetchOutcome.error ⟨5, 3⟩ false).2
        = (async_update_data
          { coord := { base_update_interval := 10, update_interval := 10,
                       last_valid_data := some [("TodayGenerateEnergy", JsonValue.num 52),
                                                ("InputPower", JsonValue.num 300)],
                       last_valid_time := some ⟨5, 1⟩ },
            store := none }
          FetchOutcome.error ⟨5, 3⟩ true).2 :=
  claim_C10
    { coord := { base_update_interval := 10, update_interval := 10,
                 last_valid_data := some [("TodayGenerateEnergy", JsonValue.num 52),
                                          ("InputPower", JsonValue.num 300)],
                 last_valid_time := some ⟨5, 1⟩ },
      store := none }
    FetchOutcome.error ⟨5, 3⟩ true false rfl

end OpenInverter
